import Mathlib

/-!
Verification of the phantom LD_PRELOAD observability agent and its trace
store.  Every definition in this file is a shallow embedding of a function
of the repository (crates/phantom-agent/src/lib.rs,
crates/phantom-storage/src/fjall_store.rs, crates/phantom-capture/src/ldpreload.rs,
crates/phantom-core/src/trace.rs), translated line by line from the Rust
source.  Bytes are modelled as `Nat` (values below 256 where it matters),
byte buffers as `List Nat`, and Rust panics as `Option.none` results of the
otherwise-total translated functions.
-/

namespace Phantom

/-! ## Buffer-size constants and the guarded append (lib.rs lines 43-47) -/

/-- Maximum datagram payload (`MAX_DATAGRAM` in lib.rs). -/
def MAX_DATAGRAM : Nat := 60000

/-- Maximum body bytes stored per trace (`MAX_BODY` in lib.rs). -/
def MAX_BODY : Nat := 16384

/-- Maximum bytes buffered per connection (`MAX_BUF` in lib.rs). -/
def MAX_BUF : Nat := 512 * 1024

/-- Shallow embedding of the guarded buffer append used at every per-connection
buffer site of the agent (`if buf.len() < MAX_BUF { buf.extend_from_slice(data) }`
in `process_outgoing`, `process_incoming`, `process_mysql_outgoing`,
`process_mysql_incoming`, and the HTTP/2 stream body appends). -/
def cappedExtend (buf data : List Nat) : List Nat :=
  if buf.length < MAX_BUF then buf ++ data else buf

/-! ## MySQL length-encoded integers (lib.rs lines 737-761) -/

/-- Little-endian 16-bit value from two bytes (`u16::from_le_bytes`). -/
def u16le (a b : Nat) : Nat := a + b * 256

/-- Shallow embedding of `decode_lenenc_int` (lib.rs lines 737-761).  Returns
`(value, bytes_consumed)` or `none` on insufficient data or the 0xff ERR
marker.  `u32::from_le_bytes([b1,b2,b3,0])` and `u64::from_le_bytes` are
rendered as the corresponding little-endian sums. -/
def decode_lenenc_int (buf : List Nat) : Option (Nat × Nat) :=
  match buf with
  | [] => none
  | b :: _ =>
    if b ≤ 0xfb then some (b, 1)
    else if b = 0xfc then
      if buf.length < 3 then none
      else some (buf.getD 1 0 + buf.getD 2 0 * 2 ^ 8, 3)
    else if b = 0xfd then
      if buf.length < 4 then none
      else some (buf.getD 1 0 + buf.getD 2 0 * 2 ^ 8 + buf.getD 3 0 * 2 ^ 16, 4)
    else if b = 0xfe then
      if buf.length < 9 then none
      else some (buf.getD 1 0 + buf.getD 2 0 * 2 ^ 8 + buf.getD 3 0 * 2 ^ 16 +
                 buf.getD 4 0 * 2 ^ 24 + buf.getD 5 0 * 2 ^ 32 + buf.getD 6 0 * 2 ^ 40 +
                 buf.getD 7 0 * 2 ^ 48 + buf.getD 8 0 * 2 ^ 56, 9)
    else none

/-- Reference definition of the MySQL length-encoded integer, written from the
specification's words: a first byte in `[0x00, 0xfb]` decodes to itself
consuming one byte; `0xfc` is followed by a 2-byte little-endian value (3
bytes consumed); `0xfd` by a 3-byte little-endian value (4 consumed); `0xfe`
by an 8-byte little-endian value (9 consumed); `0xff` is never a value; a
buffer with insufficient trailing bytes decodes to nothing. -/
def lenencIntRef (buf : List Nat) : Option (Nat × Nat) :=
  match buf with
  | [] => none
  | b :: rest =>
    if b ≤ 0xfb then some (b, 1)
    else if b = 0xfc then
      match rest with
      | x0 :: x1 :: _ => some (x0 + x1 * 2 ^ 8, 3)
      | _ => none
    else if b = 0xfd then
      match rest with
      | x0 :: x1 :: x2 :: _ => some (x0 + x1 * 2 ^ 8 + x2 * 2 ^ 16, 4)
      | _ => none
    else if b = 0xfe then
      match rest with
      | x0 :: x1 :: x2 :: x3 :: x4 :: x5 :: x6 :: x7 :: _ =>
        some (x0 + x1 * 2 ^ 8 + x2 * 2 ^ 16 + x3 * 2 ^ 24 + x4 * 2 ^ 32 +
              x5 * 2 ^ 40 + x6 * 2 ^ 48 + x7 * 2 ^ 56, 9)
      | _ => none
    else none

/-! ## HTTP/2 header-block range (lib.rs lines 142-183) -/

/-- HTTP/2 PADDED frame flag. -/
def H2_FLAG_PADDED : Nat := 0x8

/-- HTTP/2 PRIORITY frame flag. -/
def H2_FLAG_PRIORITY : Nat := 0x20

/-- Shallow embedding of `h2_header_block_range` (lib.rs lines 167-183).  The
straight-line Rust updates `start`/`end` under two flag tests with an early
return for a PADDED empty payload; `saturating_sub` is Nat subtraction. -/
def h2_header_block_range (payload : List Nat) (flags : Nat) : Nat × Nat :=
  if flags &&& H2_FLAG_PADDED ≠ 0 then
    if payload = [] then (0, 0)
    else
      let pad_len := payload.headD 0
      let s := 1 + (if flags &&& H2_FLAG_PRIORITY ≠ 0 then 5 else 0)
      let e := payload.length - pad_len
      if s > e then (0, 0) else (s, e)
  else
    let s := if flags &&& H2_FLAG_PRIORITY ≠ 0 then 5 else 0
    if s > payload.length then (0, 0) else (s, payload.length)

/-- Rust slice `&l[a..b]` as a pure function (callers of
`h2_header_block_range` index `payload[start..end]`). -/
def listSlice (l : List Nat) (a b : Nat) : List Nat :=
  (l.drop a).take (b - a)

/-! ## HTTP/1 URL reconstruction (lib.rs lines 579-703) -/

/-- Characters of the scheme marker "http://". -/
def schemeHttp : List Char := "http://".toList

/-- Characters of the scheme marker "https://". -/
def schemeHttps : List Char := "https://".toList

/-- Shallow embedding of the URL synthesis in `try_parse_request` (lib.rs
lines 604-608): an absolute request target is used verbatim, otherwise the
URL is "http://" ++ host ++ path with host taken from the Host header.
Strings are modelled as character lists. -/
def request_url (path host : List Char) : List Char :=
  if schemeHttp.isPrefixOf path ∨ schemeHttps.isPrefixOf path then path
  else schemeHttp ++ host ++ path

/-- Shallow embedding of the URL rewrite in `do_emit` (lib.rs lines 685-689):
inside a TLS shim a URL starting with "http://" has that prefix replaced by
"https://" (`replacen("http://", "https://", 1)` under the `starts_with`
guard replaces exactly the leading occurrence). -/
def emit_url (tls : Bool) (url : List Char) : List Char :=
  if tls ∧ schemeHttp.isPrefixOf url then schemeHttps ++ url.drop 7 else url

/-! ## Base64 (lib.rs lines 100-131, ldpreload.rs lines 88-90) -/

/-- Base64 alphabet used by the agent's hand-rolled encoder (`T` in
`b64_encode`, lib.rs line 101). -/

def b64Table : List Char :=
  "ABCDEFGHIJKLMNOPQRSTUVWXYZabcdefghijklmnopqrstuvwxyz0123456789+/".toList

/-- Table lookup `T[i]` (indices stay below 64 at every call site). -/
def tb (i : Nat) : Char := b64Table.getD i 'A'

/-- Shallow embedding of `b64_encode` (lib.rs lines 100-122): the input is
processed in chunks of three bytes, `n = (b0 << 16) | (b1 << 8) | b2` with
missing bytes zero, and the four output characters are the 6-bit groups of
`n` (shift-and-mask rendered as division and remainder), with `'='` padding
for short final chunks. -/
def b64_encode : List Nat → List Char
  | [] => []
  | [b0] =>
    [tb (b0 * 2 ^ 16 / 2 ^ 18 % 64), tb (b0 * 2 ^ 16 / 2 ^ 12 % 64), '=', '=']
  | [b0, b1] =>
    [tb ((b0 * 2 ^ 16 + b1 * 2 ^ 8) / 2 ^ 18 % 64),
     tb ((b0 * 2 ^ 16 + b1 * 2 ^ 8) / 2 ^ 12 % 64),
     tb ((b0 * 2 ^ 16 + b1 * 2 ^ 8) / 2 ^ 6 % 64), '=']
  | b0 :: b1 :: b2 :: rest =>
    tb ((b0 * 2 ^ 16 + b1 * 2 ^ 8 + b2) / 2 ^ 18 % 64) ::
    tb ((b0 * 2 ^ 16 + b1 * 2 ^ 8 + b2) / 2 ^ 12 % 64) ::
    tb ((b0 * 2 ^ 16 + b1 * 2 ^ 8 + b2) / 2 ^ 6 % 64) ::
    tb ((b0 * 2 ^ 16 + b1 * 2 ^ 8 + b2) % 64) :: b64_encode rest

/-- Value of a base64 alphabet character, `none` for characters outside the
alphabet (including `'='`). -/
def decodeB64Char (c : Char) : Option Nat := b64Table.indexOf? c

/-- Modelled from the spec: RFC 4648 standard base64 decoding with padding
and zero trailing bits, as performed by the external `base64` crate's
`STANDARD` engine used in the collector's `decode_body`
(crates/phantom-capture/src/ldpreload.rs line 89); the crate itself is an
external dependency, so its documented strict decoding is embedded here. -/
def b64_decode : List Char → Option (List Nat)
  | [] => some []
  | c0 :: c1 :: c2 :: c3 :: rest =>
    match decodeB64Char c0, decodeB64Char c1 with
    | some i0, some i1 =>
      if c3 = '=' then
        if rest = [] then
          if c2 = '=' then
            if i1 % 16 = 0 then some [i0 * 4 + i1 / 16] else none
          else
            match decodeB64Char c2 with
            | some i2 =>
              if i2 % 4 = 0 then some [i0 * 4 + i1 / 16, i1 % 16 * 16 + i2 / 4] else none
            | none => none
        else none
      else
        match decodeB64Char c2, decodeB64Char c3, b64_decode rest with
        | some i2, some i3, some tail =>
          some ((i0 * 2 ^ 18 + i1 * 2 ^ 12 + i2 * 2 ^ 6 + i3) / 2 ^ 16 ::
                (i0 * 2 ^ 18 + i1 * 2 ^ 12 + i2 * 2 ^ 6 + i3) / 2 ^ 8 % 256 ::
                (i0 * 2 ^ 18 + i1 * 2 ^ 12 + i2 * 2 ^ 6 + i3) % 256 :: tail)
        | _, _, _ => none
    | _, _ => none
  | _ => none

/-- Shallow embedding of `body_b64` (lib.rs lines 124-131): empty bodies
yield no field, otherwise the body is truncated to `MAX_BODY` bytes and
base64-encoded. -/
def body_b64 (raw : List Nat) : Option (List Char) :=
  if raw = [] then none else some (b64_encode (raw.take MAX_BODY))

/-- Shallow embedding of the collector's `decode_body`
(crates/phantom-capture/src/ldpreload.rs lines 88-90). -/
def decode_body (b : Option (List Char)) : Option (List Nat) :=
  b.bind fun s => b64_decode s

/-! ## MySQL reassembler (lib.rs lines 701-1128) -/

/-- MySQL handshake phase (`HandshakePhase` in lib.rs lines 763-771). -/
inductive HandshakePhase
  | WaitingGreeting
  | WaitingAuthOk
  | Done
  deriving DecidableEq

/-- Result-set sub-phase (`ResultSetPhase` in lib.rs lines 773-779). -/
inductive ResultSetPhase
  | ReadingColumns (cols_seen : Nat)
  | ReadingRows
  deriving DecidableEq

/-- Query phase (`MysqlQueryState` in lib.rs lines 781-799).  The query text
is kept as its raw bytes (the Rust code stores the UTF-8 lossy decoding of the
same bytes); the monotonic `started_at` instant is not modelled, the wall
clock `timestamp_ms` is carried through as opaque data. -/
inductive MysqlQueryState
  | Idle
  | AwaitingResponse (query : List Nat) (timestamp_ms : Nat)
  | ReadingResultSet (query : List Nat) (timestamp_ms : Nat)
      (column_count row_count : Nat) (phase : ResultSetPhase)
  deriving DecidableEq

/-- Per-connection MySQL state (`MysqlConnState` in lib.rs lines 801-811). -/
structure MysqlConnState where
  dest_addr : Option String
  db_name : Option String
  send_buf : List Nat
  recv_buf : List Nat
  handshake : HandshakePhase
  query_state : MysqlQueryState
  deriving DecidableEq

/-- Emitted MySQL trace message (`MysqlTraceMsg` in lib.rs lines 827-846),
without the unmodelled wall-clock duration field. -/
structure MysqlTraceMsg where
  query : List Nat
  timestamp_ms : Nat
  dest_addr : Option String
  db_name : Option String
  affected_rows : Option Nat
  last_insert_id : Option Nat
  warnings : Option Nat
  column_count : Option Nat
  row_count : Option Nat
  error_code : Option Nat
  sql_state : Option (List Nat)
  error_message : Option (List Nat)
  deriving DecidableEq

/-- Shallow embedding of `parse_mysql_packet` (lib.rs lines 721-733):
`[3-byte little-endian length][1-byte seq id][payload]`, `none` if
incomplete. -/
def parse_mysql_packet (buf : List Nat) : Option (Nat × Nat × List Nat) :=
  if buf.length < 4 then none
  else
    let payload_len := buf.getD 0 0 + buf.getD 1 0 * 2 ^ 8 + buf.getD 2 0 * 2 ^ 16
    let total := 4 + payload_len
    if buf.length < total then none
    else some (total, buf.getD 3 0, (buf.drop 4).take payload_len)

/-- Rust slice expression `&l[i..]`: `none` models the panic raised when
`i` exceeds the slice length. -/
def sliceFrom (l : List Nat) (i : Nat) : Option (List Nat) :=
  if i ≤ l.length then some (l.drop i) else none

/-- Builder for the `MysqlTraceMsg` struct literals of
`process_mysql_incoming` (query, timestamp and connection metadata plus the
per-branch response fields). -/
def mkMysqlMsg (st : MysqlConnState) (query : List Nat) (ts : Nat)
    (ar lid w cc rc ec : Option Nat) (sqlst msg : Option (List Nat)) : MysqlTraceMsg :=
  { query, timestamp_ms := ts, dest_addr := st.dest_addr, db_name := st.db_name,
    affected_rows := ar, last_insert_id := lid, warnings := w,
    column_count := cc, row_count := rc, error_code := ec,
    sql_state := sqlst, error_message := msg }

/-- Outcome of one iteration of the packet-drain loop in
`process_mysql_incoming`: `continue`, `return Some(msg)`, `break`
(incomplete packet), or a Rust panic. -/
inductive StepResult
  | cont (st : MysqlConnState)
  | emit (msg : MysqlTraceMsg) (st : MysqlConnState)
  | stop
  | panic
  deriving DecidableEq

/-- OK-packet branch of `process_mysql_incoming` (lib.rs lines 938-971):
affected rows and last insert id are decoded as length-encoded integers
(`&payload[1..]` and `&payload[off1..]` are `sliceFrom` applications, each a
potential panic), and the warnings field is read as the 2-byte little-endian
value at offsets `off1 + 1`, `off1 + 2` when at least `off1 + 5` bytes are
present. -/
def mysql_ok_response (st : MysqlConnState) (consumed : Nat) (payload query : List Nat)
    (ts : Nat) : StepResult :=
  match sliceFrom payload 1 with
  | none => .panic
  | some tail1 =>
    let ar := match decode_lenenc_int tail1 with
      | some (v, o) => (v, o + 1)
      | none => (0, 1)
    match sliceFrom payload ar.2 with
    | none => .panic
    | some tail2 =>
      let lid := (decode_lenenc_int tail2).getD (0, 1)
      let warnings := if ar.2 + 1 + 4 ≤ payload.length
        then u16le (payload.getD (ar.2 + 1) 0) (payload.getD (ar.2 + 2) 0) else 0
      .emit (mkMysqlMsg st query ts (some ar.1) (some lid.1) (some warnings)
              none none none none none)
        { st with query_state := .Idle, recv_buf := st.recv_buf.drop consumed }

/-- ERR-packet branch of `process_mysql_incoming`, shared between the
`AwaitingResponse` site (lib.rs lines 973-1008, with `cc = rc = none`) and
the `ReadingRows` site (lib.rs lines 1079-1114, with the column and row
counts): the error code is guarded by a length check, the sqlstate by
`payload.len() >= 9 && payload[3] == b'#'`, and the message is
`&payload[msg_start..]` — a `sliceFrom` application that panics when the
payload is shorter than `msg_start`. -/
def mysql_err_response (st : MysqlConnState) (consumed : Nat) (payload query : List Nat)
    (ts : Nat) (cc rc : Option Nat) : StepResult :=
  let error_code := if 3 ≤ payload.length
    then u16le (payload.getD 1 0) (payload.getD 2 0) else 0
  let sm := if 9 ≤ payload.length ∧ payload.getD 3 0 = 0x23
    then ((payload.drop 4).take 5, 9) else (([] : List Nat), 3)
  match sliceFrom payload sm.2 with
  | none => .panic
  | some m =>
    .emit (mkMysqlMsg st query ts none none none cc rc
            (some error_code) (some sm.1) (some m))
      { st with query_state := .Idle, recv_buf := st.recv_buf.drop consumed }

/-- One iteration of the packet-drain loop of `process_mysql_incoming`
(lib.rs lines 897-1125): handshake tracking, then the command-phase response
state machine. -/
def mysql_incoming_step (st : MysqlConnState) : StepResult :=
  match parse_mysql_packet st.recv_buf with
  | none => .stop
  | some (consumed, seq_id, payload) =>
    match st.handshake with
    | .WaitingGreeting =>
      .cont { st with
        handshake := if seq_id = 0 ∧ payload.head? = some 0x0a
          then .WaitingAuthOk else .WaitingGreeting,
        recv_buf := st.recv_buf.drop consumed }
    | .WaitingAuthOk =>
      .cont { st with
        handshake := if 2 ≤ seq_id ∧ payload.head? = some 0x00
          then .Done else .WaitingAuthOk,
        recv_buf := st.recv_buf.drop consumed }
    | .Done =>
      match st.query_state with
      | .Idle =>
        .cont { st with recv_buf := st.recv_buf.drop consumed }
      | .AwaitingResponse query ts =>
        if payload.headD 0 = 0x00 then
          mysql_ok_response st consumed payload query ts
        else if payload.headD 0 = 0xff then
          mysql_err_response st consumed payload query ts none none
        else
          .cont { st with
            query_state := .ReadingResultSet query ts
              (((decode_lenenc_int payload).map Prod.fst).getD 1) 0 (.ReadingColumns 0),
            recv_buf := st.recv_buf.drop consumed }
      | .ReadingResultSet query ts cc rc phase =>
        match phase with
        | .ReadingColumns cs =>
          .cont { st with
            query_state := .ReadingResultSet query ts cc rc
              (if payload.headD 0 = 0xfe ∧ payload.length < 9
               then .ReadingRows else .ReadingColumns (cs + 1)),
            recv_buf := st.recv_buf.drop consumed }
        | .ReadingRows =>
          if (payload.headD 0 = 0xfe ∧ payload.length < 9) ∨ payload.headD 0 = 0x00 then
            .emit (mkMysqlMsg st query ts none none none (some cc) (some rc)
                    none none none)
              { st with query_state := .Idle, recv_buf := st.recv_buf.drop consumed }
          else if payload.headD 0 = 0xff then
            mysql_err_response st consumed payload query ts (some cc) (some rc)
          else
            .cont { st with
              query_state := .ReadingResultSet query ts cc (rc + 1) .ReadingRows,
              recv_buf := st.recv_buf.drop consumed }

/-- Fuel-indexed driver of the drain loop.  Each iteration consumes at least
four bytes of `recv_buf`, so `recv_buf.length + 1` fuel always suffices and
the fuel-exhaustion branch is unreachable from `process_mysql_incoming`. -/
def mysqlIncomingLoop : Nat → MysqlConnState → Option (Option MysqlTraceMsg × MysqlConnState)
  | 0, st => some (none, st)
  | fuel + 1, st =>
    match mysql_incoming_step st with
    | .stop => some (none, st)
    | .cont st2 => mysqlIncomingLoop fuel st2
    | .emit msg st2 => some (some msg, st2)
    | .panic => none

/-- Shallow embedding of `process_mysql_incoming` (lib.rs lines 892-1128):
append the chunk under the buffer cap, then drain complete packets.  The
result is `none` when the Rust code panics, otherwise the emitted trace (if
any) and the final state. -/
def process_mysql_incoming (st : MysqlConnState) (data : List Nat) :
    Option (Option MysqlTraceMsg × MysqlConnState) :=
  mysqlIncomingLoop ((cappedExtend st.recv_buf data).length + 1)
    { st with recv_buf := cappedExtend st.recv_buf data }

/-- Connection state after a completed handshake with a COM_QUERY
("1", timestamp 0) in flight. -/
def c1state : MysqlConnState :=
  { dest_addr := none, db_name := none, send_buf := [], recv_buf := [],
    handshake := .Done, query_state := .AwaitingResponse [0x31] 0 }

/-- The same connection state once the response has been consumed. -/
def c1stateIdle : MysqlConnState :=
  { dest_addr := none, db_name := none, send_buf := [], recv_buf := [],
    handshake := .Done, query_state := .Idle }

/-- Message the agent emits for the OK packet
`00 00 00 02 00 00 00` (affected rows 0, last insert id 0, status flags
0x0002, warnings 0 on the wire). -/
def okTraceMsg : MysqlTraceMsg :=
  { query := [0x31], timestamp_ms := 0, dest_addr := none, db_name := none,
    affected_rows := some 0, last_insert_id := some 0, warnings := some 2,
    column_count := none, row_count := none, error_code := none,
    sql_state := none, error_message := none }

/-! ## Trace store (phantom-core/src/trace.rs, phantom-storage/src/fjall_store.rs) -/

/-- JSON value trees.  The store serialises traces with `serde_json`; the
byte-level rendering of the external crate is not modelled, a trace is
stored as its JSON tree. -/
inductive Json where
  | null
  | num (n : Nat)
  | str (s : String)
  | arr (items : List Json)
  | obj (fields : List (String × Json))

/-- HTTP method enumeration (`HttpMethod` in phantom-core/src/trace.rs
lines 48-58). -/
inductive HttpMethod
  | Get | Post | Put | Delete | Patch | Head | Options | Trace | Connect
  deriving DecidableEq

/-- HTTP trace record (`HttpTrace` in phantom-core/src/trace.rs lines
79-106).  `SpanId`/`TraceId` are their byte arrays, `SystemTime` and
`Duration` their serde representations `(secs, nanos)`, header maps are
association lists. -/
structure HttpTrace where
  span_id : List Nat
  trace_id : List Nat
  parent_span_id : Option (List Nat)
  method : HttpMethod
  url : String
  request_headers : List (String × String)
  request_body : Option (List Nat)
  status_code : Nat
  response_headers : List (String × String)
  response_body : Option (List Nat)
  timestamp : Nat × Nat
  duration : Nat × Nat
  source_addr : Option String
  dest_addr : Option String
  protocol_version : String
  deriving DecidableEq

/-- Option-valued traversal of a list, as serde deserialises JSON
sequences: fail as soon as one element fails. -/
def optTraverse (f : α → Option β) : List α → Option (List β)
  | [] => some []
  | a :: l => (f a).bind fun b => (optTraverse f l).map (b :: ·)

/-- Serde encoding of `Vec<u8>` and `[u8; N]`: a JSON array of numbers. -/
def encodeBytes (l : List Nat) : Json := .arr (l.map .num)

/-- Serde encoding of `Option<T>`: `null` for `None`. -/
def encodeOpt (f : α → Json) : Option α → Json
  | none => .null
  | some x => f x

/-- Serde encoding of `HashMap<String, String>`: a JSON object. -/
def encodeHeaders (hs : List (String × String)) : Json :=
  .obj (hs.map fun p => (p.1, .str p.2))

/-- Serde encoding of `HttpMethod` with `rename_all = "UPPERCASE"`. -/
def encodeMethod : HttpMethod → Json
  | .Get => .str "GET"
  | .Post => .str "POST"
  | .Put => .str "PUT"
  | .Delete => .str "DELETE"
  | .Patch => .str "PATCH"
  | .Head => .str "HEAD"
  | .Options => .str "OPTIONS"
  | .Trace => .str "TRACE"
  | .Connect => .str "CONNECT"

/-- Serde encoding of `SystemTime`. -/
def encodeSystemTime (p : Nat × Nat) : Json :=
  .obj [("secs_since_epoch", .num p.1), ("nanos_since_epoch", .num p.2)]

/-- Serde encoding of `Duration`. -/
def encodeDuration (p : Nat × Nat) : Json :=
  .obj [("secs", .num p.1), ("nanos", .num p.2)]

/-- Modelled from the spec: `serde_json::to_vec` on the derived
`Serialize` of `HttpTrace` (field order and names follow the struct
declaration; the external crate is embedded at the JSON-tree level). -/
def HttpTrace.toJson (t : HttpTrace) : Json :=
  .obj [("span_id", encodeBytes t.span_id),
        ("trace_id", encodeBytes t.trace_id),
        ("parent_span_id", encodeOpt encodeBytes t.parent_span_id),
        ("method", encodeMethod t.method),
        ("url", .str t.url),
        ("request_headers", encodeHeaders t.request_headers),
        ("request_body", encodeOpt encodeBytes t.request_body),
        ("status_code", .num t.status_code),
        ("response_headers", encodeHeaders t.response_headers),
        ("response_body", encodeOpt encodeBytes t.response_body),
        ("timestamp", encodeSystemTime t.timestamp),
        ("duration", encodeDuration t.duration),
        ("source_addr", encodeOpt .str t.source_addr),
        ("dest_addr", encodeOpt .str t.dest_addr),
        ("protocol_version", .str t.protocol_version)]

/-- Field lookup in a JSON object, as serde resolves struct fields from a
map. -/
def jLookup (fields : List (String × Json)) (name : String) : Option Json :=
  (fields.find? (fun p => p.1 == name)).map (·.2)

/-- Serde decoding of a `u8`. -/
def decodeByte : Json → Option Nat
  | .num n => if n < 256 then some n else none
  | _ => none

/-- Serde decoding of `Vec<u8>`. -/
def decodeBytes : Json → Option (List Nat)
  | .arr js => optTraverse decodeByte js
  | _ => none

/-- Serde decoding of `[u8; k]`: a byte array of exactly `k` elements. -/
def decodeBytesN (k : Nat) (j : Json) : Option (List Nat) :=
  (decodeBytes j).bind fun l => if l.length = k then some l else none

/-- Null test used by the `Option` deserialiser. -/
def Json.isNull : Json → Bool
  | .null => true
  | _ => false

/-- Serde decoding of `Option<T>`: `null` is `None`, anything else is
delegated to the inner deserialiser. -/
def decodeOpt (f : Json → Option α) (j : Json) : Option (Option α) :=
  if j.isNull then some none else (f j).map some

/-- Serde decoding of a `String`. -/
def decodeStr : Json → Option String
  | .str s => some s
  | _ => none

/-- Serde decoding of a `u64`. -/
def decodeU64 : Json → Option Nat
  | .num n => if n < 2 ^ 64 then some n else none
  | _ => none

/-- Serde decoding of a `u32`. -/
def decodeU32 : Json → Option Nat
  | .num n => if n < 2 ^ 32 then some n else none
  | _ => none

/-- Serde decoding of a `u16`. -/
def decodeU16 : Json → Option Nat
  | .num n => if n < 2 ^ 16 then some n else none
  | _ => none

/-- Serde decoding of `HashMap<String, String>`. -/
def decodeHeaders : Json → Option (List (String × String))
  | .obj fs => optTraverse (fun p => (decodeStr p.2).map ((p.1, ·))) fs
  | _ => none

/-- Serde decoding of `HttpMethod` (UPPERCASE strings). -/
def decodeMethod : Json → Option HttpMethod
  | .str s =>
    if s = "GET" then some .Get
    else if s = "POST" then some .Post
    else if s = "PUT" then some .Put
    else if s = "DELETE" then some .Delete
    else if s = "PATCH" then some .Patch
    else if s = "HEAD" then some .Head
    else if s = "OPTIONS" then some .Options
    else if s = "TRACE" then some .Trace
    else if s = "CONNECT" then some .Connect
    else none
  | _ => none

/-- Serde decoding of `SystemTime`. -/
def decodeSystemTime (j : Json) : Option (Nat × Nat) :=
  match j with
  | .obj fs =>
    ((jLookup fs "secs_since_epoch").bind decodeU64).bind fun s =>
      ((jLookup fs "nanos_since_epoch").bind decodeU32).map fun n => (s, n)
  | _ => none

/-- Serde decoding of `Duration`. -/
def decodeDuration (j : Json) : Option (Nat × Nat) :=
  match j with
  | .obj fs =>
    ((jLookup fs "secs").bind decodeU64).bind fun s =>
      ((jLookup fs "nanos").bind decodeU32).map fun n => (s, n)
  | _ => none

/-- Modelled from the spec: `serde_json::from_slice` on the derived
`Deserialize` of `HttpTrace`. -/
def HttpTrace.fromJson : Json → Option HttpTrace
  | .obj fs => do
    let span_id ← (jLookup fs "span_id").bind (decodeBytesN 8)
    let trace_id ← (jLookup fs "trace_id").bind (decodeBytesN 16)
    let parent_span_id ← (jLookup fs "parent_span_id").bind (decodeOpt (decodeBytesN 8))
    let method ← (jLookup fs "method").bind decodeMethod
    let url ← (jLookup fs "url").bind decodeStr
    let request_headers ← (jLookup fs "request_headers").bind decodeHeaders
    let request_body ← (jLookup fs "request_body").bind (decodeOpt decodeBytes)
    let status_code ← (jLookup fs "status_code").bind decodeU16
    let response_headers ← (jLookup fs "response_headers").bind decodeHeaders
    let response_body ← (jLookup fs "response_body").bind (decodeOpt decodeBytes)
    let timestamp ← (jLookup fs "timestamp").bind decodeSystemTime
    let duration ← (jLookup fs "duration").bind decodeDuration
    let source_addr ← (jLookup fs "source_addr").bind (decodeOpt decodeStr)
    let dest_addr ← (jLookup fs "dest_addr").bind (decodeOpt decodeStr)
    let protocol_version ← (jLookup fs "protocol_version").bind decodeStr
    pure { span_id, trace_id, parent_span_id, method, url, request_headers,
           request_body, status_code, response_headers, response_body,
           timestamp, duration, source_addr, dest_addr, protocol_version }
  | _ => none

/-- All elements are bytes. -/
def byteList (l : List Nat) : Prop := ∀ b ∈ l, b < 256

instance (l : List Nat) : Decidable (byteList l) :=
  inferInstanceAs (Decidable (∀ b ∈ l, b < 256))

/-- Optional byte buffer well-formedness. -/
def optByteList : Option (List Nat) → Prop
  | none => True
  | some l => byteList l

instance (o : Option (List Nat)) : Decidable (optByteList o) :=
  match o with
  | none => Decidable.isTrue trivial
  | some l => inferInstanceAs (Decidable (byteList l))

/-- Optional fixed-width byte array well-formedness. -/
def optBytesLen (k : Nat) : Option (List Nat) → Prop
  | none => True
  | some l => l.length = k ∧ byteList l

instance (k : Nat) (o : Option (List Nat)) : Decidable (optBytesLen k o) :=
  match o with
  | none => Decidable.isTrue trivial
  | some l => inferInstanceAs (Decidable (l.length = k ∧ byteList l))

/-- Well-formedness of an in-memory `HttpTrace`: the Rust type invariants
(`[u8; 8]`/`[u8; 16]` identifiers, byte bodies, `u16` status, `u64`/`u32`
second and nanosecond fields). -/
abbrev HttpTrace.WF (t : HttpTrace) : Prop :=
  t.span_id.length = 8 ∧ byteList t.span_id ∧
  t.trace_id.length = 16 ∧ byteList t.trace_id ∧
  optBytesLen 8 t.parent_span_id ∧
  optByteList t.request_body ∧
  t.status_code < 2 ^ 16 ∧
  optByteList t.response_body ∧
  t.timestamp.1 < 2 ^ 64 ∧ t.timestamp.2 < 2 ^ 32 ∧
  t.duration.1 < 2 ^ 64 ∧ t.duration.2 < 2 ^ 32

/-- Key-value partition write (the external `fjall` store is modelled as an
association list; a batch commit applies the writes). -/
def kvInsert (store : List (List Nat × α)) (k : List Nat) (v : α) : List (List Nat × α) :=
  (k, v) :: store

/-- Key-value partition read. -/
def kvGet (store : List (List Nat × α)) (k : List Nat) : Option α :=
  (store.find? (fun p => p.1 == k)).map (·.2)

/-- The three partitions of `FjallTraceStore`
(phantom-storage/src/fjall_store.rs lines 8-13). -/
structure FjallTraceStore where
  traces : List (List Nat × Json)
  by_time : List (List Nat × List Nat)
  by_trace_id : List (List Nat × List Nat)

/-- Big-endian bytes of a `u64` (`to_be_bytes`). -/
def beBytes8 (n : Nat) : List Nat :=
  [n / 2 ^ 56 % 256, n / 2 ^ 48 % 256, n / 2 ^ 40 % 256, n / 2 ^ 32 % 256,
   n / 2 ^ 24 % 256, n / 2 ^ 16 % 256, n / 2 ^ 8 % 256, n % 256]

/-- Shallow embedding of `encode_timestamp` (fjall_store.rs lines 46-52):
big-endian nanoseconds since the epoch, truncated to `u64`. -/
def encode_timestamp (t : Nat × Nat) : List Nat :=
  beBytes8 ((t.1 * 1000000000 + t.2) % 2 ^ 64)

/-- Shallow embedding of `time_key` (fjall_store.rs lines 55-60). -/
def time_key (t : HttpTrace) : List Nat := encode_timestamp t.timestamp ++ t.span_id

/-- Shallow embedding of `trace_id_key` (fjall_store.rs lines 63-68). -/
def trace_id_key (t : HttpTrace) : List Nat := t.trace_id ++ t.span_id

/-- Shallow embedding of `FjallTraceStore::insert` (fjall_store.rs lines
71-88): serialise, then atomically write the three partitions. -/
def FjallTraceStore.insert (st : FjallTraceStore) (t : HttpTrace) : FjallTraceStore :=
  { traces := kvInsert st.traces t.span_id t.toJson,
    by_time := kvInsert st.by_time (time_key t) t.span_id,
    by_trace_id := kvInsert st.by_trace_id (trace_id_key t) t.span_id }

/-- Shallow embedding of `FjallTraceStore::get_by_span_id` (fjall_store.rs
lines 90-101): `some none` when absent, `none` models a deserialisation
error return. -/
def FjallTraceStore.get_by_span_id (st : FjallTraceStore) (sid : List Nat) :
    Option (Option HttpTrace) :=
  match kvGet st.traces sid with
  | none => some none
  | some v =>
    match HttpTrace.fromJson v with
    | some t => some (some t)
    | none => none

/-- Concrete well-formed trace for the claim C7 witness. -/
def sampleTrace : HttpTrace :=
  { span_id := [1, 2, 3, 4, 5, 6, 7, 8],
    trace_id := [0, 1, 2, 3, 4, 5, 6, 7, 8, 9, 10, 11, 12, 13, 14, 15],
    parent_span_id := none, method := .Get, url := "http://example.com/api",
    request_headers := [("host", "example.com")], request_body := none,
    status_code := 200, response_headers := [], response_body := some [104, 105],
    timestamp := (1700000000, 0), duration := (0, 42000000), source_addr := none,
    dest_addr := none, protocol_version := "HTTP/1.1" }

/-- Store with all three partitions empty. -/
def emptyStore : FjallTraceStore := { traces := [], by_time := [], by_trace_id := [] }

/-! ## Helper lemmas -/

theorem tb_decode : ∀ i < 64, decodeB64Char (tb i) = some i := by decide

theorem tb_ne_pad : ∀ i < 64, tb i ≠ '=' := by decide

/-- Internal helper for claim C9, proved by cases on the final chunk size. -/
theorem b64_roundtrip (d : List Nat) (h : ∀ b ∈ d, b < 256) :
    b64_decode (b64_encode d) = some d := by
  revert h
  induction d using b64_encode.induct with
  | case1 => intro h; rfl
  | case2 b0 =>
    intro h
    have hb0 : b0 < 256 := h b0 (by simp)
    have d0 : decodeB64Char (tb (b0 * 65536 / 262144 % 64)) = some (b0 * 65536 / 262144 % 64) :=
      tb_decode _ (Nat.mod_lt _ (by norm_num))
    have d1 : decodeB64Char (tb (b0 * 65536 / 4096 % 64)) = some (b0 * 65536 / 4096 % 64) :=
      tb_decode _ (Nat.mod_lt _ (by norm_num))
    have h16 : b0 * 65536 / 4096 % 64 % 16 = 0 := by omega
    simp [b64_encode, b64_decode, d0, d1, h16]
    omega
  | case3 b0 b1 =>
    intro h
    have hb0 : b0 < 256 := h b0 (by simp)
    have hb1 : b1 < 256 := h b1 (by simp)
    have d0 : decodeB64Char (tb ((b0 * 65536 + b1 * 256) / 262144 % 64)) =
        some ((b0 * 65536 + b1 * 256) / 262144 % 64) :=
      tb_decode _ (Nat.mod_lt _ (by norm_num))
    have d1 : decodeB64Char (tb ((b0 * 65536 + b1 * 256) / 4096 % 64)) =
        some ((b0 * 65536 + b1 * 256) / 4096 % 64) :=
      tb_decode _ (Nat.mod_lt _ (by norm_num))
    have d2 : decodeB64Char (tb ((b0 * 65536 + b1 * 256) / 64 % 64)) =
        some ((b0 * 65536 + b1 * 256) / 64 % 64) :=
      tb_decode _ (Nat.mod_lt _ (by norm_num))
    have n2 : tb ((b0 * 65536 + b1 * 256) / 64 % 64) ≠ '=' :=
      tb_ne_pad _ (Nat.mod_lt _ (by norm_num))
    have h4 : (b0 * 65536 + b1 * 256) / 64 % 64 % 4 = 0 := by omega
    simp [b64_encode, b64_decode, d0, d1, d2, n2, h4]
    omega
  | case4 b0 b1 b2 rest ih =>
    intro h
    have hb0 : b0 < 256 := h b0 (by simp)
    have hb1 : b1 < 256 := h b1 (by simp)
    have hb2 : b2 < 256 := h b2 (by simp)
    have hrest : ∀ b ∈ rest, b < 256 := fun b hb => h b (by simp [hb])
    have d0 : decodeB64Char (tb ((b0 * 65536 + b1 * 256 + b2) / 262144 % 64)) =
        some ((b0 * 65536 + b1 * 256 + b2) / 262144 % 64) :=
      tb_decode _ (Nat.mod_lt _ (by norm_num))
    have d1 : decodeB64Char (tb ((b0 * 65536 + b1 * 256 + b2) / 4096 % 64)) =
        some ((b0 * 65536 + b1 * 256 + b2) / 4096 % 64) :=
      tb_decode _ (Nat.mod_lt _ (by norm_num))
    have d2 : decodeB64Char (tb ((b0 * 65536 + b1 * 256 + b2) / 64 % 64)) =
        some ((b0 * 65536 + b1 * 256 + b2) / 64 % 64) :=
      tb_decode _ (Nat.mod_lt _ (by norm_num))
    have d3 : decodeB64Char (tb ((b0 * 65536 + b1 * 256 + b2) % 64)) =
        some ((b0 * 65536 + b1 * 256 + b2) % 64) :=
      tb_decode _ (Nat.mod_lt _ (by norm_num))
    have n3 : tb ((b0 * 65536 + b1 * 256 + b2) % 64) ≠ '=' :=
      tb_ne_pad _ (Nat.mod_lt _ (by norm_num))
    simp [b64_encode, b64_decode, d0, d1, d2, d3, n3, ih hrest]
    omega

/-- Internal helper: the OK branch only emits with the query phase reset to
`Idle`. -/
theorem ok_response_emit_idle (st : MysqlConnState) (consumed : Nat)
    (payload query : List Nat) (ts : Nat) (m : MysqlTraceMsg) (st2 : MysqlConnState)
    (h : mysql_ok_response st consumed payload query ts = .emit m st2) :
    st2.query_state = .Idle := by
  unfold mysql_ok_response at h
  cases h1 : sliceFrom payload 1 with
  | none => rw [h1] at h; exact StepResult.noConfusion h
  | some t1 =>
    rw [h1] at h
    dsimp only at h
    split at h
    · exact StepResult.noConfusion h
    · injection h with hm hst; rw [← hst]

/-- Internal helper: the ERR branch only emits with the query phase reset to
`Idle`. -/
theorem err_response_emit_idle (st : MysqlConnState) (consumed : Nat)
    (payload query : List Nat) (ts : Nat) (cc rc : Option Nat)
    (m : MysqlTraceMsg) (st2 : MysqlConnState)
    (h : mysql_err_response st consumed payload query ts cc rc = .emit m st2) :
    st2.query_state = .Idle := by
  unfold mysql_err_response at h
  dsimp only at h
  split at h
  · exact StepResult.noConfusion h
  · injection h with hm hst; rw [← hst]

/-- Internal helper: every emitting iteration of the drain loop leaves the
query phase `Idle`. -/
theorem step_emit_idle (st : MysqlConnState) (m : MysqlTraceMsg) (st2 : MysqlConnState)
    (h : mysql_incoming_step st = .emit m st2) : st2.query_state = .Idle := by
  unfold mysql_incoming_step at h
  cases hp : parse_mysql_packet st.recv_buf with
  | none => rw [hp] at h; exact StepResult.noConfusion h
  | some t =>
    obtain ⟨consumed, seq_id, payload⟩ := t
    rw [hp] at h
    dsimp only at h
    cases hhs : st.handshake <;> rw [hhs] at h <;> dsimp only at h
    case WaitingGreeting => exact StepResult.noConfusion h
    case WaitingAuthOk => exact StepResult.noConfusion h
    case Done =>
      cases hqs : st.query_state <;> rw [hqs] at h <;> dsimp only at h
      case Idle => exact StepResult.noConfusion h
      case AwaitingResponse query ts =>
        split at h
        · exact ok_response_emit_idle _ _ _ _ _ _ _ h
        · split at h
          · exact err_response_emit_idle _ _ _ _ _ _ _ _ _ h
          · exact StepResult.noConfusion h
      case ReadingResultSet query ts cc rc phase =>
        cases phase <;> dsimp only at h
        case ReadingColumns cs => exact StepResult.noConfusion h
        case ReadingRows =>
          split at h
          · injection h with hm hst; rw [← hst]
          · split at h
            · exact err_response_emit_idle _ _ _ _ _ _ _ _ _ h
            · exact StepResult.noConfusion h

/-- Internal helper: the drain loop returns an emitted message only with the
query phase `Idle` in the final state. -/
theorem loop_emits_only_idle (fuel : Nat) :
    ∀ (st : MysqlConnState) (msg : MysqlTraceMsg) (st2 : MysqlConnState),
      mysqlIncomingLoop fuel st = some (some msg, st2) → st2.query_state = .Idle := by
  induction fuel with
  | zero => intro st msg st2 h; simp [mysqlIncomingLoop] at h
  | succ fuel ih =>
    intro st msg st2 h
    unfold mysqlIncomingLoop at h
    split at h
    · simp at h
    · exact ih _ _ _ h
    · rename_i m2 st3 heq
      simp only [Option.some.injEq, Prod.mk.injEq] at h
      obtain ⟨hm, hst⟩ := h
      subst hst
      exact step_emit_idle _ _ _ heq
    · exact Option.noConfusion h

/-- Internal helper for claim C7. -/
theorem optTraverse_bytes (l : List Nat) (h : byteList l) :
    optTraverse decodeByte (l.map Json.num) = some l := by
  induction l with
  | nil => rfl
  | cons b l ih =>
    have hb : b < 256 := h b (by simp)
    have hl : byteList l := fun x hx => h x (by simp [hx])
    simp [optTraverse, decodeByte, hb, ih hl]

/-- Internal helper for claim C7. -/
theorem decodeBytes_encodeBytes (l : List Nat) (h : byteList l) :
    decodeBytes (encodeBytes l) = some l := by
  simp [decodeBytes, encodeBytes, optTraverse_bytes l h]

/-- Internal helper for claim C7. -/
theorem decodeBytesN_encodeBytes (k : Nat) (l : List Nat) (h : byteList l)
    (hk : l.length = k) : decodeBytesN k (encodeBytes l) = some l := by
  simp [decodeBytesN, decodeBytes_encodeBytes l h, hk]

/-- Internal helper for claim C7. -/
theorem decodeHeaders_encodeHeaders (hs : List (String × String)) :
    decodeHeaders (encodeHeaders hs) = some hs := by
  induction hs with
  | nil => rfl
  | cons p l ih =>
    simp only [encodeHeaders, List.map_cons] at *
    simp [decodeHeaders, optTraverse, decodeStr] at *
    simp [ih]

/-- Internal helper for claim C7. -/
theorem decodeMethod_encodeMethod (m : HttpMethod) :
    decodeMethod (encodeMethod m) = some m := by
  cases m <;> rfl

/-- Internal helper for claim C7. -/
theorem decodeSystemTime_encodeSystemTime (p : Nat × Nat)
    (h1 : p.1 < 2 ^ 64) (h2 : p.2 < 2 ^ 32) :
    decodeSystemTime (encodeSystemTime p) = some p := by
  have h1a : p.1 < 18446744073709551616 := by omega
  have h2a : p.2 < 4294967296 := by omega
  simp [decodeSystemTime, encodeSystemTime, jLookup, decodeU64, decodeU32, h1a, h2a]

/-- Internal helper for claim C7. -/
theorem decodeDuration_encodeDuration (p : Nat × Nat)
    (h1 : p.1 < 2 ^ 64) (h2 : p.2 < 2 ^ 32) :
    decodeDuration (encodeDuration p) = some p := by
  have h1a : p.1 < 18446744073709551616 := by omega
  have h2a : p.2 < 4294967296 := by omega
  simp [decodeDuration, encodeDuration, jLookup, decodeU64, decodeU32, h1a, h2a]

/-- Internal helper for claim C7. -/
theorem decodeOpt_bytes (x : Option (List Nat)) (hx : optByteList x) :
    decodeOpt decodeBytes (encodeOpt encodeBytes x) = some x := by
  cases x with
  | none => rfl
  | some l =>
    have hb : byteList l := hx
    show (decodeBytes (encodeBytes l)).map some = some (some l)
    rw [decodeBytes_encodeBytes l hb]
    rfl

/-- Internal helper for claim C7. -/
theorem decodeOpt_bytesN (k : Nat) (x : Option (List Nat))
    (hx : optBytesLen k x) :
    decodeOpt (decodeBytesN k) (encodeOpt encodeBytes x) = some x := by
  cases x with
  | none => rfl
  | some l =>
    have hb : l.length = k ∧ byteList l := hx
    show (decodeBytesN k (encodeBytes l)).map some = some (some l)
    rw [decodeBytesN_encodeBytes k l hb.2 hb.1]
    rfl

/-- Internal helper for claim C7. -/
theorem decodeOpt_str (x : Option String) :
    decodeOpt decodeStr (encodeOpt Json.str x) = some x := by
  cases x <;> rfl

/-- Internal helper for claim C7. -/
theorem fromJson_toJson (t : HttpTrace) (h : t.WF) :
    HttpTrace.fromJson t.toJson = some t := by
  obtain ⟨h1, h2, h3, h4, h5, h6, h7, h8, h9, h10, h11, h12⟩ := h
  have e1 := decodeBytesN_encodeBytes 8 t.span_id h2 h1
  have e2 := decodeBytesN_encodeBytes 16 t.trace_id h4 h3
  have e3 := decodeOpt_bytesN 8 t.parent_span_id h5
  have e4 := decodeMethod_encodeMethod t.method
  have e5 := decodeHeaders_encodeHeaders t.request_headers
  have e6 := decodeOpt_bytes t.request_body h6
  have e7 : decodeU16 (Json.num t.status_code) = some t.status_code := by
    have : t.status_code < 65536 := by omega
    simp [decodeU16, this]
  have e8 := decodeHeaders_encodeHeaders t.response_headers
  have e9 := decodeOpt_bytes t.response_body h8
  have e10 := decodeSystemTime_encodeSystemTime t.timestamp h9 h10
  have e11 := decodeDuration_encodeDuration t.duration h11 h12
  have e12 := decodeOpt_str t.source_addr
  have e13 := decodeOpt_str t.dest_addr
  simp [HttpTrace.toJson, HttpTrace.fromJson, jLookup, decodeStr,
    e1, e2, e3, e4, e5, e6, e7, e8, e9, e10, e11, e12, e13]

/-! ## Claim C3: buffer cap -/

/-- Claim C3, counterexample.  The claim states that per-connection buffers
never exceed 512 KiB after any operation.  The guarded append only checks the
length before appending, so a single chunk appended to a short buffer pushes
it past the cap: one chunk of 512 KiB + 1 bytes arriving on a fresh buffer
(exactly what `process_mysql_incoming` does on its first line) leaves the
buffer at 512 KiB + 1 bytes. -/
theorem c3_buffer_cap_counterexample :
    MAX_BUF < (cappedExtend [] (List.replicate (MAX_BUF + 1) 0)).length := by
  rw [cappedExtend, if_pos (by norm_num [MAX_BUF])]
  rw [List.length_append, List.length_replicate]
  norm_num

/-- Claim C3 (amended): a chunk is appended to a per-connection buffer only
when the buffer is strictly below the 512 KiB cap, and is dropped whole
(preserving the buffered state) otherwise; consequently, starting from an
empty buffer, after any sequence of chunk appends the buffer stays strictly
below 512 KiB plus the size of the largest single chunk. -/
theorem c3_buffer_cap_amended (chunks : List (List Nat)) (M : Nat)
    (buf data : List Nat)
    (hM : ∀ c ∈ chunks, c.length ≤ M) (hbuf : MAX_BUF ≤ buf.length) :
    (chunks.foldl cappedExtend []).length < MAX_BUF + M ∧ cappedExtend buf data = buf := by
  constructor
  · have aux : ∀ (cs : List (List Nat)) (acc : List Nat),
        (∀ c ∈ cs, c.length ≤ M) → acc.length < MAX_BUF + M →
        (cs.foldl cappedExtend acc).length < MAX_BUF + M := by
      intro cs
      induction cs with
      | nil => intro acc _ hacc; simpa using hacc
      | cons c cs ih =>
        intro acc hcs hacc
        simp only [List.foldl_cons]
        apply ih _ (fun x hx => hcs x (List.mem_cons_of_mem _ hx))
        have hc := hcs c (List.mem_cons_self _ _)
        by_cases hlt : acc.length < MAX_BUF
        · simp only [cappedExtend, if_pos hlt, List.length_append]
          omega
        · simpa [cappedExtend, hlt] using hacc
    exact aux chunks [] hM (by simp [MAX_BUF])
  · simp [cappedExtend, Nat.not_lt.mpr hbuf]

/-- Claim C3, witness: the amended theorem applied at a two-chunk sequence and
at a buffer that already sits exactly at the cap. -/
theorem c3_buffer_cap_amended_witness :
    (∀ c ∈ ([[0], [1, 2]] : List (List Nat)), c.length ≤ 2) ∧
    MAX_BUF ≤ (List.replicate MAX_BUF 0).length ∧
    (([[0], [1, 2]] : List (List Nat)).foldl cappedExtend []).length < MAX_BUF + 2 ∧
    cappedExtend (List.replicate MAX_BUF 0) [7] = List.replicate MAX_BUF 0 :=
  ⟨by decide, by rw [List.length_replicate],
   (c3_buffer_cap_amended [[0], [1, 2]] 2 (List.replicate MAX_BUF 0) [7]
     (by decide) (by rw [List.length_replicate])).1,
   (c3_buffer_cap_amended [[0], [1, 2]] 2 (List.replicate MAX_BUF 0) [7]
     (by decide) (by rw [List.length_replicate])).2⟩

/-! ## Claim C4: length-encoded integer decode -/

/-- Claim C4: `decode_lenenc_int` agrees with the reference definition of the
MySQL length-encoded integer on every buffer: one byte in `[0x00,0xfb]`
decodes to itself, `0xfc`, `0xfd` and `0xfe` are followed by 2, 3 and 8
byte little-endian values consuming 3, 4 and 9 bytes, `0xff` never decodes, and
insufficient trailing bytes decode to nothing. -/
theorem c4_lenenc_int_correct (buf : List Nat) :
    decode_lenenc_int buf = lenencIntRef buf := by
  match buf with
  | [] => rfl
  | b :: rest =>
    simp only [decode_lenenc_int, lenencIntRef]
    by_cases h1 : b ≤ 0xfb
    · simp [h1]
    by_cases h2 : b = 0xfc
    · rcases rest with _ | ⟨x0, _ | ⟨x1, t⟩⟩ <;> simp [h1, h2, List.length_cons]
    by_cases h3 : b = 0xfd
    · rcases rest with _ | ⟨x0, _ | ⟨x1, _ | ⟨x2, t⟩⟩⟩ <;>
        simp [h1, h2, h3, List.length_cons]
    by_cases h4 : b = 0xfe
    · rcases rest with _ | ⟨x0, _ | ⟨x1, _ | ⟨x2, _ | ⟨x3, _ | ⟨x4, _ | ⟨x5, _ |
        ⟨x6, _ | ⟨x7, t⟩⟩⟩⟩⟩⟩⟩⟩ <;> simp [h1, h2, h3, h4, List.length_cons]
    · simp [h1, h2, h3, h4]

/-! ## Claims C5 and C8: HTTP/2 header-block range -/

/-- Claim C5: for a HEADERS payload `[pad_len][5 priority bytes][hb][pad]`
with the PADDED and PRIORITY flags set (0x28), `h2_header_block_range`
returns exactly the range of the header block `hb`, the slice of the payload
at that range is `hb` itself — identical to what the unpadded, unprioritized
frame (flags 0) yields on payload `hb` — and a PADDED empty payload yields
the empty range. -/
theorem c5_padding_priority_range (hb prio pad : List Nat)
    (hprio : prio.length = 5) :
    h2_header_block_range (pad.length :: (prio ++ hb ++ pad)) 0x28 =
      (6, 6 + hb.length) ∧
    listSlice (pad.length :: (prio ++ hb ++ pad)) 6 (6 + hb.length) = hb ∧
    h2_header_block_range hb 0 = (0, hb.length) ∧
    listSlice hb 0 hb.length = hb ∧
    h2_header_block_range [] H2_FLAG_PADDED = (0, 0) := by
  refine ⟨?_, ?_, ?_, ?_, ?_⟩
  · simp only [h2_header_block_range,
      show ((0x28 : Nat) &&& H2_FLAG_PADDED) = 8 from rfl,
      show ((0x28 : Nat) &&& H2_FLAG_PRIORITY) = 32 from rfl]
    norm_num
    simp only [List.headD_cons, List.length_cons, List.length_append, hprio]
    have h1 : 5 + (hb.length + pad.length) + 1 - pad.length = 6 + hb.length := by omega
    rw [h1]
    simp
  · have h6 : (6 : Nat) + hb.length - 6 = hb.length := by omega
    simp only [listSlice, h6]
    have hdrop6 : (pad.length :: (prio ++ hb ++ pad)).drop 6 =
        (prio ++ hb ++ pad).drop 5 := rfl
    rw [hdrop6, List.append_assoc, List.drop_left' hprio, List.take_left]
  · simp [h2_header_block_range, H2_FLAG_PADDED, H2_FLAG_PRIORITY]
  · simp [listSlice]
  · simp [h2_header_block_range, H2_FLAG_PADDED]

/-- Claim C5, witness: the theorem applied at a concrete 3-byte header block
with pad length 4 and an arbitrary 5-byte priority block. -/
theorem c5_padding_priority_range_witness :
    ([9, 8, 7, 6, 5] : List Nat).length = 5 ∧
    (h2_header_block_range
        (([0xa, 0xb, 0xc, 0xd] : List Nat).length ::
          (([9, 8, 7, 6, 5] : List Nat) ++ ([1, 2, 3] : List Nat) ++
            ([0xa, 0xb, 0xc, 0xd] : List Nat))) 0x28 =
      (6, 6 + ([1, 2, 3] : List Nat).length) ∧
    listSlice
        (([0xa, 0xb, 0xc, 0xd] : List Nat).length ::
          (([9, 8, 7, 6, 5] : List Nat) ++ ([1, 2, 3] : List Nat) ++
            ([0xa, 0xb, 0xc, 0xd] : List Nat))) 6 (6 + ([1, 2, 3] : List Nat).length) =
      [1, 2, 3] ∧
    h2_header_block_range ([1, 2, 3] : List Nat) 0 = (0, ([1, 2, 3] : List Nat).length) ∧
    listSlice ([1, 2, 3] : List Nat) 0 ([1, 2, 3] : List Nat).length = [1, 2, 3] ∧
    h2_header_block_range [] H2_FLAG_PADDED = (0, 0)) :=
  ⟨by decide, c5_padding_priority_range [1, 2, 3] [9, 8, 7, 6, 5] [0xa, 0xb, 0xc, 0xd]
    (by decide)⟩

/-- Claim C8: for every payload and flag byte, `h2_header_block_range`
returns a pair `(s, e)` with `s ≤ e ≤ payload.length`, so the header-block
slice taken by `process_h2_send_frames` and `process_h2_recv_frames` is
always in bounds. -/
theorem c8_header_block_range_in_bounds (payload : List Nat) (flags : Nat) :
    (h2_header_block_range payload flags).1 ≤ (h2_header_block_range payload flags).2 ∧
    (h2_header_block_range payload flags).2 ≤ payload.length := by
  unfold h2_header_block_range
  split_ifs <;> simp <;> (try (split <;> simp)) <;> omega

/-! ## Claim C9: base64 round trip -/

/-- Claim C9: decoding the agent's hand-rolled base64 encoding with a
standard base64 decoder recovers the input bytes exactly, so the collector's
`decode_body` recovers byte-for-byte the (capped) body bytes the agent
captured with `body_b64`. -/
theorem c9_decode_body_recovers_capture (raw : List Nat) (h : ∀ b ∈ raw, b < 256) :
    decode_body (body_b64 raw) = if raw = [] then none else some (raw.take MAX_BODY) := by
  by_cases he : raw = []
  · simp [body_b64, decode_body, he]
  · simp only [body_b64, decode_body, if_neg he, Option.bind_some]
    exact b64_roundtrip _ (fun b hb => h b (List.take_subset _ _ hb))

/-- Claim C9, witness: the composed round trip evaluated on the concrete
body `[0, 255, 77, 10]`. -/
theorem c9_decode_body_recovers_capture_witness :
    (∀ b ∈ ([0, 255, 77, 10] : List Nat), b < 256) ∧
    decode_body (body_b64 [0, 255, 77, 10]) =
      (if ([0, 255, 77, 10] : List Nat) = [] then none
       else some (([0, 255, 77, 10] : List Nat).take MAX_BODY)) :=
  ⟨by decide, c9_decode_body_recovers_capture [0, 255, 77, 10] (by decide)⟩

/-! ## Claim C6: HTTP/1 URL reconstruction -/

/-- Claim C6, counterexample.  The claim states that an absolute request
target is used as the emitted URL.  For a request observed inside a TLS shim
whose request line carries the absolute target "http://h/p", the agent
rewrites the target's scheme and emits "https://h/p" instead. -/
theorem c6_absolute_target_counterexample :
    emit_url true (request_url "http://h/p".toList "h".toList) ≠ "http://h/p".toList ∧
    emit_url true (request_url "http://h/p".toList "h".toList) = "https://h/p".toList := by
  constructor <;> decide

/-- Claim C6 (amended): for a completed HTTP/1 round trip the URL is
scheme://host + path with host from the Host header and scheme https exactly
when the bytes were seen inside a TLS shim; when the request line carries an
absolute request target (starting with http:// or https://) that target is
used, except that inside a TLS shim a target starting with http:// has that
prefix rewritten to https:// (and an https:// target on a non-TLS connection
is kept verbatim). -/
theorem c6_url_reconstruction_amended (path host : List Char) (tls : Bool) :
    emit_url tls (request_url path host) =
      if schemeHttp.isPrefixOf path ∨ schemeHttps.isPrefixOf path then
        (if tls ∧ schemeHttp.isPrefixOf path then schemeHttps ++ path.drop 7 else path)
      else (if tls then schemeHttps else schemeHttp) ++ host ++ path := by
  by_cases habs : schemeHttp.isPrefixOf path ∨ schemeHttps.isPrefixOf path
  · simp only [request_url, emit_url, if_pos habs]
  · simp only [request_url, emit_url, if_neg habs]
    have hpre : schemeHttp.isPrefixOf (schemeHttp ++ host ++ path) := by
      rw [List.append_assoc]
      exact List.isPrefixOf_iff_prefix.mpr (List.prefix_append _ _)
    cases tls with
    | false => simp
    | true =>
      simp only [true_and, hpre, if_pos, if_true]
      rw [List.append_assoc, show (7 : Nat) = schemeHttp.length from rfl, List.drop_left,
        List.append_assoc]

/-! ## Claims C1, C2 and C10: the MySQL response state machine -/

/-- Claim C1 (refuted by the code): the claim states that
`process_mysql_incoming` handles an ERR packet of any payload length without
panicking.  In the `AwaitingResponse` state an ERR packet whose payload is
the single byte `0xff` drives the ERR branch to evaluate `&payload[3..]` on
a length-1 slice, a panic: the model returns `none`. -/
theorem c1_err_short_payload_panics :
    process_mysql_incoming c1state [1, 0, 0, 1, 0xff] = none := by decide

/-- Claim C2 (refuted by the code): the claim states that the warnings field
of an OK packet is decoded as the 2-byte little-endian value past the 2-byte
status flags.  For the standard OK payload `00 00 00 02 00 00 00` (affected
rows 0, last insert id 0, status flags `0x0002`, warnings 0) the agent emits
`warnings = 2`: it reads the bytes at offsets `off1 + 1` and `off1 + 2`,
which are the status-flags bytes, while the 2-byte value past the status
flags (payload offsets 5 and 6) is 0. -/
theorem c2_ok_warnings_misread :
    process_mysql_incoming c1state [7, 0, 0, 1, 0x00, 0x00, 0x00, 0x02, 0x00, 0x00, 0x00] =
      some (some okTraceMsg, c1stateIdle) ∧
    u16le (([0x00, 0x00, 0x00, 0x02, 0x00, 0x00, 0x00] : List Nat).getD 5 0)
          (([0x00, 0x00, 0x00, 0x02, 0x00, 0x00, 0x00] : List Nat).getD 6 0) = 0 := by
  constructor <;> decide

/-- Claim C10: whenever `process_mysql_incoming` returns an emitted trace
message (OK, ERR, or result-set completion), the connection query phase is
`Idle` in the returned state, so a single COM_QUERY yields at most one
response trace before a new query is issued. -/
theorem c10_emit_implies_idle (st : MysqlConnState) (data : List Nat)
    (msg : MysqlTraceMsg) (st2 : MysqlConnState)
    (h : process_mysql_incoming st data = some (some msg, st2)) :
    st2.query_state = .Idle :=
  loop_emits_only_idle _ _ _ _ h

/-- Claim C10, witness: the theorem applied to the OK round trip of
`c1state`. -/
theorem c10_emit_implies_idle_witness :
    process_mysql_incoming c1state [7, 0, 0, 1, 0x00, 0x00, 0x00, 0x02, 0x00, 0x00, 0x00] =
      some (some okTraceMsg, c1stateIdle) ∧
    c1stateIdle.query_state = .Idle :=
  ⟨by decide,
   c10_emit_implies_idle c1state [7, 0, 0, 1, 0x00, 0x00, 0x00, 0x02, 0x00, 0x00, 0x00]
     okTraceMsg c1stateIdle (by decide)⟩

/-! ## Claim C7: store round trip -/

/-- Claim C7: for every well-formed HTTP trace, `FjallTraceStore.insert`
followed by `get_by_span_id` at the trace span ID returns the trace with
every field unchanged: the record round-trips through serialisation. -/
theorem c7_store_roundtrip (st : FjallTraceStore) (t : HttpTrace) (h : t.WF) :
    (st.insert t).get_by_span_id t.span_id = some (some t) := by
  have hf := fromJson_toJson t h
  unfold FjallTraceStore.get_by_span_id FjallTraceStore.insert kvGet kvInsert
  simp [List.find?, hf]

/-- Claim C7, witness: the round trip evaluated on a concrete trace inserted
into the empty store. -/
theorem c7_store_roundtrip_witness :
    sampleTrace.WF ∧
    (emptyStore.insert sampleTrace).get_by_span_id sampleTrace.span_id =
      some (some sampleTrace) :=
  ⟨by decide, c7_store_roundtrip emptyStore sampleTrace (by decide)⟩

end Phantom
